import Mathlib

/-!
Verification of the media-monkey video builder core
(src/pipeline/video_builder.py and src/config.py).

The Python floats are modelled as rationals (ℚ); pixel coordinates and
sizes as integers (ℤ).  The Python conversion `int(x)` truncates toward
zero and is modelled by `pytrunc`; the Python floor division `//` on
integers is modelled by `Int.fdiv`.
-/

namespace MediaMonkey

/-- config.py: VIDEO_WIDTH default, `int(os.getenv("VIDEO_WIDTH", "1080"))`. -/
def VIDEO_WIDTH : ℤ := 1080

/-- config.py: VIDEO_HEIGHT default, `int(os.getenv("VIDEO_HEIGHT", "1920"))`. -/
def VIDEO_HEIGHT : ℤ := 1920

/-- config.py: VIDEO_FPS default, `int(os.getenv("VIDEO_FPS", "30"))`. -/
def VIDEO_FPS : ℤ := 30

/-- config.py: MAX_DURATION default, `int(os.getenv("MAX_DURATION_SECONDS", "59"))`. -/
def MAX_DURATION : ℤ := 59

/-- video_builder.py: `KB_SCALE = 1.25`. -/
def KB_SCALE : ℚ := 5 / 4

/-- video_builder.py: `CROSSFADE_DURATION = 0.6`. -/
def CROSSFADE_DURATION : ℚ := 3 / 5

/-- Python `int(x)` on a float/rational: truncation toward zero. -/
def pytrunc (x : ℚ) : ℤ := if 0 ≤ x then Int.floor x else -Int.floor (-x)

/-- video_builder.py `_smoothstep`:
`t = max(0.0, min(1.0, t)); return t * t * (3.0 - 2.0 * t)`. -/
def smoothstep (t : ℚ) : ℚ :=
  let s := max 0 (min 1 t)
  s * s * (3 - 2 * s)

/-- The clamp `max(0.0, min(1.0, x))` used by `_smoothstep` and by the
progress computations in `build_video`. -/
def clamp01 (x : ℚ) : ℚ := max 0 (min 1 x)

/-- The eight entries of `KB_EFFECTS`. -/
inductive KBEffect
  | zoom_in
  | zoom_out
  | pan_left
  | pan_right
  | pan_up
  | pan_down
  | zoom_in_pan_right
  | zoom_out_pan_left
deriving DecidableEq, Repr

/-- A crop rectangle `(cx, cy, cw, ch)` as used by `_apply_ken_burns`:
top-left corner and size, in canvas pixels. -/
structure Crop where
  cx : ℤ
  cy : ℤ
  cw : ℤ
  ch : ℤ
deriving DecidableEq, Repr

/-- Lines 199-203 of video_builder.py: clamp a raw crop to the canvas
bounds: `cw = max(1, min(cw, iw)); ch = max(1, min(ch, ih));
cx = max(0, min(cx, iw - cw)); cy = max(0, min(cy, ih - ch))`. -/
def clampCrop (iw ih cx cy cw ch : ℤ) : Crop :=
  let cw2 := max 1 (min cw iw)
  let ch2 := max 1 (min ch ih)
  ⟨max 0 (min cx (iw - cw2)), max 0 (min cy (ih - ch2)), cw2, ch2⟩

/-- Apply `clampCrop` to a raw `(cx, cy, cw, ch)` tuple. -/
def clampCrop4 (iw ih : ℤ) (r : ℤ × ℤ × ℤ × ℤ) : Crop :=
  clampCrop iw ih r.1 r.2.1 r.2.2.1 r.2.2.2

/-- The common body of the zoom branches of `_apply_ken_burns`:
`cw = int(iw * scale); ch = int(ih * scale);
cx = (iw - cw) // 2; cy = (ih - ch) // 2`. -/
def zoomCrop (iw ih : ℤ) (scale : ℚ) : ℤ × ℤ × ℤ × ℤ :=
  let cw := pytrunc ((iw : ℚ) * scale)
  let ch := pytrunc ((ih : ℚ) * scale)
  ((iw - cw).fdiv 2, (ih - ch).fdiv 2, cw, ch)

/-- The common body of the combined zoom+pan branches of `_apply_ken_burns`:
`cw = int(iw * scale); ch = int(ih * scale);
cx = int((iw - cw) * tx); cy = (ih - ch) // 2`. -/
def zoomPanCrop (iw ih : ℤ) (scale tx : ℚ) : ℤ × ℤ × ℤ × ℤ :=
  let cw := pytrunc ((iw : ℚ) * scale)
  let ch := pytrunc ((ih : ℚ) * scale)
  (pytrunc (((iw - cw : ℤ) : ℚ) * tx), (ih - ch).fdiv 2, cw, ch)

/-- Body of `_apply_ken_burns` after `t = _smoothstep(progress)`: the crop
rectangle computed from the eased parameter `t`, per effect, then clamped
to the canvas bounds (lines 145-203 of video_builder.py).
`iw, ih` is the canvas size, `vw, vh` the viewport size. -/
def kenBurnsCropT (iw ih vw vh : ℤ) : KBEffect → ℚ → Crop
  | .zoom_in, t =>
      clampCrop4 iw ih (zoomCrop iw ih (1 - t * (1 - (vw : ℚ) / (iw : ℚ))))
  | .zoom_out, t =>
      clampCrop4 iw ih (zoomCrop iw ih ((vw : ℚ) / (iw : ℚ) + t * (1 - (vw : ℚ) / (iw : ℚ))))
  | .pan_left, t =>
      clampCrop4 iw ih (pytrunc (((iw - vw : ℤ) : ℚ) * (1 - t)), (ih - vh).fdiv 2, vw, vh)
  | .pan_right, t =>
      clampCrop4 iw ih (pytrunc (((iw - vw : ℤ) : ℚ) * t), (ih - vh).fdiv 2, vw, vh)
  | .pan_up, t =>
      clampCrop4 iw ih ((iw - vw).fdiv 2, pytrunc (((ih - vh : ℤ) : ℚ) * (1 - t)), vw, vh)
  | .pan_down, t =>
      clampCrop4 iw ih ((iw - vw).fdiv 2, pytrunc (((ih - vh : ℤ) : ℚ) * t), vw, vh)
  | .zoom_in_pan_right, t =>
      clampCrop4 iw ih (zoomPanCrop iw ih (1 - t * (1 - (vw : ℚ) / (iw : ℚ)) * (3 / 5)) t)
  | .zoom_out_pan_left, t =>
      clampCrop4 iw ih
        (zoomPanCrop iw ih ((vw : ℚ) / (iw : ℚ) + t * (1 - (vw : ℚ) / (iw : ℚ)) * (3 / 5)) (1 - t))

/-- Full `_apply_ken_burns`: line 144 applies `_smoothstep` to the progress,
then the crop is computed from the eased value. -/
def kenBurnsCrop (iw ih vw vh : ℤ) (eff : KBEffect) (progress : ℚ) : Crop :=
  kenBurnsCropT iw ih vw vh eff (smoothstep progress)

/-- Lines 205-208 of video_builder.py: the cropped frame is resized to
`(vw, vh)` whenever its size differs, so this is the size of the frame
`_apply_ken_burns` returns. -/
def kenBurnsFrameSize (iw ih vw vh : ℤ) (eff : KBEffect) (progress : ℚ) : ℤ × ℤ :=
  let c := kenBurnsCrop iw ih vw vh eff progress
  if c.cw = vw ∧ c.ch = vh then (c.cw, c.ch) else (vw, vh)

/-- Canvas width from `_resize_for_ken_burns`: `int(VIDEO_WIDTH * KB_SCALE)`;
every canvas handed to `_apply_ken_burns` has this width. -/
def kbCanvasW : ℤ := pytrunc ((VIDEO_WIDTH : ℚ) * KB_SCALE)

/-- Canvas height from `_resize_for_ken_burns`: `int(VIDEO_HEIGHT * KB_SCALE)`. -/
def kbCanvasH : ℤ := pytrunc ((VIDEO_HEIGHT : ℚ) * KB_SCALE)

/-- build_video line 312: `target_dur = min(_audio_duration(voiceover_path),
float(MAX_DURATION))`. -/
def targetDur (audioDur : ℚ) : ℚ := min audioDur (MAX_DURATION : ℚ)

/-- build_video line 339: `total_frames = int(target_dur * VIDEO_FPS)`. -/
def totalFrames (dur : ℚ) : ℤ := pytrunc (dur * (VIDEO_FPS : ℚ))

/-- build_video line 341: `dur_per_scene = target_dur / n_scenes`. -/
def durPerScene (dur : ℚ) (nScenes : ℕ) : ℚ := dur / (nScenes : ℚ)

/-- build_video line 373: the frame clock, `t = frame_idx / VIDEO_FPS`. -/
def frameTime (frameIdx : ℕ) : ℚ := (frameIdx : ℚ) / (VIDEO_FPS : ℚ)

/-- build_video line 382:
`scene_idx = min(int(t / dur_per_scene), n_scenes - 1)`. -/
def sceneIdxAt (dur : ℚ) (nScenes : ℕ) (t : ℚ) : ℕ :=
  min (pytrunc (t / durPerScene dur nScenes)).toNat (nScenes - 1)

/-- build_video lines 397-398: the crossfade blend weight as a function of
the time remaining in the current scene:
`alpha = _smoothstep(1.0 - time_to_end / CROSSFADE_DURATION)`. -/
def crossfadeAlpha (timeToEnd : ℚ) : ℚ :=
  smoothstep (1 - timeToEnd / CROSSFADE_DURATION)

/-- The scene indices at which build_video line 396 can blend into a next
scene: those with `next_idx < n_scenes`. -/
def crossfadeScenes (nScenes : ℕ) : Finset ℕ :=
  (Finset.range nScenes).filter (fun i => i + 1 < nScenes)

/-- The shape of one frame produced by the render loop of build_video:
either a single scene rendered at some progress, or two scenes blended
by `Image.blend(frame, frame_b, alpha)`. -/
inductive RenderedFrame
  | single (sceneIdx : ℕ) (progress : ℚ)
  | blended (sceneIdx : ℕ) (progress : ℚ) (nextIdx : ℕ) (nextProgress : ℚ) (alpha : ℚ)
deriving DecidableEq, Repr

/-- One iteration of the render loop of build_video (lines 372-407):
scene selection, clamped scene progress, and the crossfade branch
`if next_idx < n_scenes and time_to_end < CROSSFADE_DURATION`. -/
def renderFrame (dur : ℚ) (nScenes : ℕ) (frameIdx : ℕ) : RenderedFrame :=
  let t := frameTime frameIdx
  let dps := durPerScene dur nScenes
  let sceneIdx := sceneIdxAt dur nScenes t
  let sceneStart := (sceneIdx : ℚ) * dps
  let progress := clamp01 ((t - sceneStart) / dps)
  let timeToEnd := (sceneStart + dps) - t
  if sceneIdx + 1 < nScenes ∧ timeToEnd < CROSSFADE_DURATION then
    RenderedFrame.blended sceneIdx progress (sceneIdx + 1)
      (clamp01 ((CROSSFADE_DURATION - timeToEnd) / dps))
      (crossfadeAlpha timeToEnd)
  else
    RenderedFrame.single sceneIdx progress

/-- The full render loop: `for frame_idx in range(total_frames)`, one
frame per index. -/
def renderVideo (dur : ℚ) (nScenes : ℕ) : List RenderedFrame :=
  (List.range (totalFrames dur).toNat).map (renderFrame dur nScenes)

/-- One parsed SRT cue (`_parse_srt`): start and stop time in seconds,
and the text.  `stop` models the dictionary key "end". -/
structure Cue where
  start : ℚ
  stop : ℚ
  text : String
deriving DecidableEq, Repr

/-- The activity test of `_composite_caption` line 276:
`c["start"] <= t < c["end"]`. -/
def cueActive (c : Cue) (t : ℚ) : Bool :=
  decide (c.start ≤ t) && decide (t < c.stop)

/-- From `_composite_caption` line 276: the list of cues rendered onto the
frame at time t, `[c for c in captions if c["start"] <= t < c["end"]]`. -/
def activeCaptions (captions : List Cue) (t : ℚ) : List Cue :=
  captions.filter (fun c => cueActive c t)

/-- Outcome of the external mixing process run by `_mix_audio`:
`returncode != 0` is a failure. -/
inductive MixResult
  | ok
  | err (returncode : ℤ)
deriving DecidableEq, Repr

/-- Model of `_mix_audio` (lines 480-498): if no music is supplied or the file does
not exist, return the voiceover path; run the mixer; on nonzero return
code fall back to the voiceover path, else return the mixed file.
Paths are abstract strings; the mixer outcome is passed in explicitly. -/
def mixAudio (voiceover : String) (music : Option String)
    (musicExists : String → Bool) (result : MixResult) : String :=
  match music with
  | none => voiceover
  | some m =>
      if musicExists m then
        match result with
        | .ok => "mixed_audio.aac"
        | .err _ => voiceover
      else voiceover

/-- Model of `_load_images_for_kb` (lines 448-457) and `_extract_clip_frames_for_kb`
(lines 460-477): each asset either loads to a canvas (`some`) or fails and
is skipped (`none`); the successfully loaded canvases are kept in order. -/
def loadImagesForKB {α : Type} (assets : List (Option α)) : List α :=
  assets.filterMap id

/-- build_video lines 315-322: choose still images if any were supplied,
else extracted clip frames, else fail; then fail if no frame was
prepared.  Each `Option α` input is one asset, `none` meaning it failed
to load or extract. -/
def prepareVisuals {α : Type} (sceneImages backgroundClips : List (Option α)) :
    Except String (List α) :=
  if ¬ sceneImages.isEmpty then
    let kb := loadImagesForKB sceneImages
    if kb.isEmpty then Except.error "Failed to prepare any visual frames"
    else Except.ok kb
  else if ¬ backgroundClips.isEmpty then
    let kb := loadImagesForKB backgroundClips
    if kb.isEmpty then Except.error "Failed to prepare any visual frames"
    else Except.ok kb
  else Except.error "No scene images or background clips provided"

/-- The usable visuals after loading: the assets of the selected source
that loaded successfully. -/
def usableVisuals {α : Type} (sceneImages backgroundClips : List (Option α)) :
    List α :=
  if ¬ sceneImages.isEmpty then loadImagesForKB sceneImages
  else loadImagesForKB backgroundClips

/-! ### Helper lemmas -/

lemma clamp01_nonneg (x : ℚ) : 0 ≤ clamp01 x := le_max_left 0 _

lemma clamp01_le_one (x : ℚ) : clamp01 x ≤ 1 :=
  max_le (by norm_num) (min_le_left 1 x)

lemma clamp01_mono {a b : ℚ} (h : a ≤ b) : clamp01 a ≤ clamp01 b :=
  max_le_max le_rfl (min_le_min le_rfl h)

lemma clamp01_of_mem {x : ℚ} (h0 : 0 ≤ x) (h1 : x ≤ 1) : clamp01 x = x := by
  unfold clamp01
  rw [min_eq_right h1, max_eq_right h0]

lemma clamp01_idem (x : ℚ) : clamp01 (clamp01 x) = clamp01 x :=
  clamp01_of_mem (clamp01_nonneg x) (clamp01_le_one x)

lemma smoothstep_def2 (t : ℚ) :
    smoothstep t = clamp01 t * clamp01 t * (3 - 2 * clamp01 t) := rfl

lemma smoothstep_clamp (t : ℚ) : smoothstep (clamp01 t) = smoothstep t := by
  rw [smoothstep_def2, smoothstep_def2, clamp01_idem]

lemma smoothstep_mono {a b : ℚ} (h : a ≤ b) : smoothstep a ≤ smoothstep b := by
  rw [smoothstep_def2, smoothstep_def2]
  have hx0 : 0 ≤ clamp01 a := clamp01_nonneg a
  have hx1 : clamp01 a ≤ 1 := clamp01_le_one a
  have hy0 : 0 ≤ clamp01 b := clamp01_nonneg b
  have hy1 : clamp01 b ≤ 1 := clamp01_le_one b
  have hxy : clamp01 a ≤ clamp01 b := clamp01_mono h
  nlinarith [mul_nonneg (sub_nonneg.2 hxy) (mul_nonneg hx0 (sub_nonneg.2 hx1)),
    mul_nonneg (sub_nonneg.2 hxy) (mul_nonneg hy0 (sub_nonneg.2 hy1)),
    mul_nonneg (sub_nonneg.2 hxy)
      (mul_nonneg (add_nonneg hx0 hy0) (by linarith : (0 : ℚ) ≤ 2 - clamp01 a - clamp01 b))]

lemma smoothstep_mem (t : ℚ) : 0 ≤ smoothstep t ∧ smoothstep t ≤ 1 := by
  rw [smoothstep_def2]
  have hx0 : 0 ≤ clamp01 t := clamp01_nonneg t
  have hx1 : clamp01 t ≤ 1 := clamp01_le_one t
  constructor
  · nlinarith
  · nlinarith [mul_nonneg (sq_nonneg (1 - clamp01 t)) (by linarith : (0 : ℚ) ≤ 1 + 2 * clamp01 t)]

lemma clamp01_reflect (p : ℚ) : clamp01 (1 - p) = 1 - clamp01 p := by
  simp only [clamp01, max_def, min_def]
  split_ifs <;> linarith

lemma smoothstep_reflect (p : ℚ) : smoothstep (1 - p) = 1 - smoothstep p := by
  rw [smoothstep_def2, smoothstep_def2, clamp01_reflect]
  ring

lemma clampCrop_bounds (iw ih cx cy cw ch : ℤ) (hw : 1 ≤ iw) (hh : 1 ≤ ih) :
    0 ≤ (clampCrop iw ih cx cy cw ch).cx ∧ 0 ≤ (clampCrop iw ih cx cy cw ch).cy ∧
    (clampCrop iw ih cx cy cw ch).cx + (clampCrop iw ih cx cy cw ch).cw ≤ iw ∧
    (clampCrop iw ih cx cy cw ch).cy + (clampCrop iw ih cx cy cw ch).ch ≤ ih ∧
    1 ≤ (clampCrop iw ih cx cy cw ch).cw ∧ 1 ≤ (clampCrop iw ih cx cy cw ch).ch := by
  simp only [clampCrop]
  omega

lemma kenBurnsCrop_bounds (iw ih vw vh : ℤ) (eff : KBEffect) (p : ℚ)
    (hw : 1 ≤ iw) (hh : 1 ≤ ih) :
    0 ≤ (kenBurnsCrop iw ih vw vh eff p).cx ∧
    0 ≤ (kenBurnsCrop iw ih vw vh eff p).cy ∧
    (kenBurnsCrop iw ih vw vh eff p).cx + (kenBurnsCrop iw ih vw vh eff p).cw ≤ iw ∧
    (kenBurnsCrop iw ih vw vh eff p).cy + (kenBurnsCrop iw ih vw vh eff p).ch ≤ ih ∧
    1 ≤ (kenBurnsCrop iw ih vw vh eff p).cw ∧ 1 ≤ (kenBurnsCrop iw ih vw vh eff p).ch := by
  unfold kenBurnsCrop
  cases eff <;> exact clampCrop_bounds _ _ _ _ _ _ hw hh

lemma kenBurnsFrameSize_eq (iw ih vw vh : ℤ) (eff : KBEffect) (p : ℚ) :
    kenBurnsFrameSize iw ih vw vh eff p = (vw, vh) := by
  unfold kenBurnsFrameSize
  simp only []
  split_ifs with h
  · rw [h.1, h.2]
  · rfl

/-! ### Claim theorems -/

/-- Claim C6: the smoothstep easing satisfies smoothstep(0)=0,
smoothstep(1)=1, smoothstep(0.5)=0.5, and is monotonically non-decreasing
on [0,1]. -/
theorem smoothstep_endpoints_mono :
    smoothstep 0 = 0 ∧ smoothstep 1 = 1 ∧ smoothstep (1 / 2) = 1 / 2 ∧
    (∀ a b : ℚ, 0 ≤ a → a ≤ b → b ≤ 1 → smoothstep a ≤ smoothstep b) :=
  ⟨by norm_num [smoothstep], by norm_num [smoothstep], by norm_num [smoothstep],
    fun _ _ _ hab _ => smoothstep_mono hab⟩

/-- Witness for C6: the monotonicity at a = 1/4, b = 3/4. -/
theorem smoothstep_endpoints_mono_witness :
    (0 : ℚ) ≤ 1 / 4 ∧ (1 / 4 : ℚ) ≤ 3 / 4 ∧ (3 / 4 : ℚ) ≤ 1 ∧
    smoothstep (1 / 4) ≤ smoothstep (3 / 4) :=
  ⟨by norm_num, by norm_num, by norm_num,
    smoothstep_endpoints_mono.2.2.2 (1 / 4) (3 / 4) (by norm_num) (by norm_num) (by norm_num)⟩

/-- Claim C10: smoothstep is total and first clamps its input to [0,1]:
smoothstep(t) = smoothstep(max(0, min(1, t))), its value always lies in
[0,1], and the Ken Burns geometry at any out-of-range progress behaves
exactly as at the clamped (nearest endpoint) progress. -/
theorem smoothstep_total_clamped :
    (∀ t : ℚ, smoothstep t = smoothstep (max 0 (min 1 t))) ∧
    (∀ t : ℚ, 0 ≤ smoothstep t ∧ smoothstep t ≤ 1) ∧
    (∀ (iw ih vw vh : ℤ) (eff : KBEffect) (p : ℚ),
      kenBurnsCrop iw ih vw vh eff p = kenBurnsCrop iw ih vw vh eff (max 0 (min 1 p))) := by
  refine ⟨fun t => (smoothstep_clamp t).symm, smoothstep_mem, ?_⟩
  intro iw ih vw vh eff p
  unfold kenBurnsCrop
  rw [show max 0 (min 1 p) = clamp01 p from rfl, smoothstep_clamp]

/-- Claim C2: for every effect kind and every progress, the Ken Burns crop
rectangle on the oversized canvas (1350 × 2400 for the default
1080 × 1920 viewport at scale 1.25) stays within the canvas bounds, and
the returned frame has exactly the configured viewport size. -/
theorem ken_burns_crop_safe :
    ∀ (eff : KBEffect) (p : ℚ),
      (0 ≤ (kenBurnsCrop kbCanvasW kbCanvasH VIDEO_WIDTH VIDEO_HEIGHT eff p).cx ∧
       0 ≤ (kenBurnsCrop kbCanvasW kbCanvasH VIDEO_WIDTH VIDEO_HEIGHT eff p).cy ∧
       (kenBurnsCrop kbCanvasW kbCanvasH VIDEO_WIDTH VIDEO_HEIGHT eff p).cx +
         (kenBurnsCrop kbCanvasW kbCanvasH VIDEO_WIDTH VIDEO_HEIGHT eff p).cw ≤ kbCanvasW ∧
       (kenBurnsCrop kbCanvasW kbCanvasH VIDEO_WIDTH VIDEO_HEIGHT eff p).cy +
         (kenBurnsCrop kbCanvasW kbCanvasH VIDEO_WIDTH VIDEO_HEIGHT eff p).ch ≤ kbCanvasH ∧
       1 ≤ (kenBurnsCrop kbCanvasW kbCanvasH VIDEO_WIDTH VIDEO_HEIGHT eff p).cw ∧
       1 ≤ (kenBurnsCrop kbCanvasW kbCanvasH VIDEO_WIDTH VIDEO_HEIGHT eff p).ch) ∧
      kenBurnsFrameSize kbCanvasW kbCanvasH VIDEO_WIDTH VIDEO_HEIGHT eff p =
        (VIDEO_WIDTH, VIDEO_HEIGHT) := by
  intro eff p
  exact ⟨kenBurnsCrop_bounds _ _ _ _ _ _
      (by norm_num [kbCanvasW, pytrunc, VIDEO_WIDTH, KB_SCALE])
      (by norm_num [kbCanvasH, pytrunc, VIDEO_HEIGHT, KB_SCALE]),
    kenBurnsFrameSize_eq _ _ _ _ _ _⟩

/-- Claim C5: zoom_in at progress 0 is the full-canvas center view, at
progress 1 the minimum viewport-sized center view, and zoom_out at any
progress p is exactly zoom_in at progress 1 − p. -/
theorem zoom_endpoints_reverse :
    kenBurnsCrop kbCanvasW kbCanvasH VIDEO_WIDTH VIDEO_HEIGHT KBEffect.zoom_in 0 =
      ⟨0, 0, kbCanvasW, kbCanvasH⟩ ∧
    kenBurnsCrop kbCanvasW kbCanvasH VIDEO_WIDTH VIDEO_HEIGHT KBEffect.zoom_in 1 =
      ⟨(kbCanvasW - VIDEO_WIDTH).fdiv 2, (kbCanvasH - VIDEO_HEIGHT).fdiv 2,
        VIDEO_WIDTH, VIDEO_HEIGHT⟩ ∧
    (∀ (iw ih vw vh : ℤ) (p : ℚ),
      kenBurnsCrop iw ih vw vh KBEffect.zoom_out p =
        kenBurnsCrop iw ih vw vh KBEffect.zoom_in (1 - p)) := by
  refine ⟨?_, ?_, ?_⟩
  · norm_num [kenBurnsCrop, kenBurnsCropT, clampCrop4, clampCrop, zoomCrop, smoothstep,
      pytrunc, VIDEO_WIDTH, VIDEO_HEIGHT, kbCanvasW, kbCanvasH, KB_SCALE]
  · norm_num [kenBurnsCrop, kenBurnsCropT, clampCrop4, clampCrop, zoomCrop, smoothstep,
      pytrunc, VIDEO_WIDTH, VIDEO_HEIGHT, kbCanvasW, kbCanvasH, KB_SCALE, Int.fdiv_eq_ediv]
  intro iw ih vw vh p
  show kenBurnsCropT iw ih vw vh KBEffect.zoom_out (smoothstep p) =
    kenBurnsCropT iw ih vw vh KBEffect.zoom_in (smoothstep (1 - p))
  rw [smoothstep_reflect]
  simp only [kenBurnsCropT]
  congr 2
  ring

/-- Claim C4: the total render duration is min(narration duration, cap),
never exceeds the cap, and a 90 s narration with the 59 s cap yields
exactly 59 s. -/
theorem duration_capped :
    (∀ audioDur : ℚ, targetDur audioDur = min audioDur (MAX_DURATION : ℚ)) ∧
    (∀ audioDur : ℚ, targetDur audioDur ≤ (MAX_DURATION : ℚ)) ∧
    targetDur 90 = 59 :=
  ⟨fun _ => rfl, fun _ => min_le_right _ _, by norm_num [targetDur, MAX_DURATION]⟩

/-- Claim C1 counterexample: for total duration D = 1/20 s (a 50 ms
narration) and fps = 30, the code computes int(D × fps) = int(1.5) = 1
frame, while round(D × fps) = round(1.5) = 2, so the frame count is not
round(D × fps). -/
theorem frame_count_not_round :
    totalFrames (1 / 20) ≠ round ((1 / 20 : ℚ) * (VIDEO_FPS : ℚ)) := by
  norm_num [totalFrames, pytrunc, VIDEO_FPS, round_eq]

/-- Claim C1 (amended): the frame count is int(D × fps), i.e. the floor
of D × fps for D ≥ 0 (truncation, not rounding); the render loop produces
exactly this many frames, fixed at setup; for D = 10 s at fps = 30 it is
exactly 300 frames. -/
theorem frame_count_fixed :
    (∀ (dur : ℚ) (nScenes : ℕ),
      (renderVideo dur nScenes).length = (totalFrames dur).toNat) ∧
    (∀ dur : ℚ, 0 ≤ dur → totalFrames dur = Int.floor (dur * (VIDEO_FPS : ℚ))) ∧
    totalFrames 10 = 300 := by
  refine ⟨fun dur nScenes => by simp [renderVideo], fun dur h => ?_, ?_⟩
  · unfold totalFrames pytrunc
    rw [if_pos (mul_nonneg h (by norm_num [VIDEO_FPS]))]
  · norm_num [totalFrames, pytrunc, VIDEO_FPS]

/-- Witness for C1: the floor formula applied at D = 59/2. -/
theorem frame_count_fixed_witness :
    (0 : ℚ) ≤ 59 / 2 ∧ totalFrames (59 / 2) = Int.floor ((59 / 2 : ℚ) * (VIDEO_FPS : ℚ)) :=
  ⟨by norm_num, frame_count_fixed.2.1 (59 / 2) (by norm_num)⟩

/-- Claim C3: for N scenes there are exactly N−1 crossfade windows and
the final scene never blends into a non-existent next scene; the blend
weight is 0 at the window start (time-to-end = CROSSFADE_DURATION), 1 at
the scene boundary (time-to-end = 0), rises monotonically as the boundary
approaches, always lies in [0,1], and the divisor CROSSFADE_DURATION is
positive; any blended frame the render loop emits names an existing next
scene. -/
theorem crossfade_windows_spec :
    (∀ nScenes : ℕ, (crossfadeScenes nScenes).card = nScenes - 1) ∧
    (∀ nScenes : ℕ, (nScenes - 1) ∉ crossfadeScenes nScenes) ∧
    crossfadeAlpha CROSSFADE_DURATION = 0 ∧
    crossfadeAlpha 0 = 1 ∧
    (∀ t1 t2 : ℚ, t1 ≤ t2 → crossfadeAlpha t2 ≤ crossfadeAlpha t1) ∧
    (∀ tte : ℚ, 0 ≤ crossfadeAlpha tte ∧ crossfadeAlpha tte ≤ 1) ∧
    0 < CROSSFADE_DURATION ∧
    (∀ (dur : ℚ) (nScenes frameIdx s n : ℕ) (pr np a : ℚ),
      renderFrame dur nScenes frameIdx = RenderedFrame.blended s pr n np a →
        n < nScenes) := by
  refine ⟨?_, ?_, ?_, ?_, ?_, ?_, ?_, ?_⟩
  · intro nScenes
    have h : crossfadeScenes nScenes = Finset.range (nScenes - 1) := by
      ext i
      simp only [crossfadeScenes, Finset.mem_filter, Finset.mem_range]
      omega
    rw [h, Finset.card_range]
  · intro nScenes
    simp only [crossfadeScenes, Finset.mem_filter, Finset.mem_range]
    omega
  · norm_num [crossfadeAlpha, CROSSFADE_DURATION, smoothstep]
  · norm_num [crossfadeAlpha, CROSSFADE_DURATION, smoothstep]
  · intro t1 t2 h
    apply smoothstep_mono
    simp only [CROSSFADE_DURATION]
    linarith
  · intro tte
    exact smoothstep_mem _
  · norm_num [CROSSFADE_DURATION]
  · intro dur nScenes frameIdx s n pr np a h
    simp only [renderFrame] at h
    split at h
    · rename_i hc
      cases h
      omega
    · cases h

/-- Witness for C3: the blend-weight monotonicity at 1/4 ≤ 1/2, and a
concrete blended frame (D = 2 s, 2 scenes, frame 15) whose next index 1
is an existing scene. -/
theorem crossfade_windows_spec_witness :
    ((1 : ℚ) / 4 ≤ 1 / 2 ∧ crossfadeAlpha (1 / 2) ≤ crossfadeAlpha (1 / 4)) ∧
    (renderFrame 2 2 15 = RenderedFrame.blended 0 (1 / 2) 1 (1 / 10) (2 / 27) ∧
      (1 : ℕ) < 2) := by
  have h15 : renderFrame 2 2 15 = RenderedFrame.blended 0 (1 / 2) 1 (1 / 10) (2 / 27) := by
    norm_num [renderFrame, frameTime, durPerScene, sceneIdxAt, clamp01, crossfadeAlpha,
      smoothstep, pytrunc, VIDEO_FPS, CROSSFADE_DURATION]
  exact ⟨⟨by norm_num, crossfade_windows_spec.2.2.2.2.1 (1 / 4) (1 / 2) (by norm_num)⟩,
    ⟨h15, crossfade_windows_spec.2.2.2.2.2.2.2 2 2 15 0 1 (1 / 2) (1 / 10) (2 / 27) h15⟩⟩

/-- Claim C7: a cue is rendered onto the frame at time t if and only if
start ≤ t < end (inclusive start, exclusive end), and every cue whose
window contains t is rendered, so overlapping active cues all render on
the same frame. -/
theorem caption_active_iff :
    ∀ (captions : List Cue) (t : ℚ) (c : Cue),
      c ∈ activeCaptions captions t ↔ c ∈ captions ∧ c.start ≤ t ∧ t < c.stop := by
  intro captions t c
  simp [activeCaptions, cueActive, List.mem_filter, and_assoc]

/-- Claim C8: with no background music the narration file is returned
unmodified, and a failing external mixer (nonzero return code) is never
fatal: the narration file is returned and the pipeline continues. -/
theorem mix_audio_fallback :
    (∀ (voiceover : String) (musicExists : String → Bool) (result : MixResult),
      mixAudio voiceover none musicExists result = voiceover) ∧
    (∀ (voiceover m : String) (musicExists : String → Bool) (code : ℤ),
      mixAudio voiceover (some m) musicExists (MixResult.err code) = voiceover) := by
  constructor
  · intro v ex r
    rfl
  · intro v m ex code
    cases h : ex m <;> simp [mixAudio, h]

/-- Claim C9: an individual asset that fails to load is skipped and does
not abort the preparation; preparation fails if and only if zero usable
visuals remain, including when neither images nor clips were supplied. -/
theorem visual_prep_fatal_iff :
    ∀ (α : Type) (sceneImages backgroundClips : List (Option α)),
      ((∃ e, prepareVisuals sceneImages backgroundClips = Except.error e) ↔
        usableVisuals sceneImages backgroundClips = []) ∧
      (∀ rest : List (Option α),
        loadImagesForKB (none :: rest) = loadImagesForKB rest) ∧
      (∀ (a : α) (rest : List (Option α)),
        loadImagesForKB (some a :: rest) = a :: loadImagesForKB rest) ∧
      prepareVisuals ([] : List (Option α)) [] =
        Except.error "No scene images or background clips provided" := by
  intro α imgs clips
  refine ⟨?_, fun rest => rfl, fun a rest => rfl, rfl⟩
  have key : ∀ l : List α,
      (∃ e, (if l.isEmpty then Except.error "Failed to prepare any visual frames"
        else Except.ok l : Except String (List α)) = Except.error e) ↔ l = [] := by
    intro l
    by_cases h : l.isEmpty
    · rw [if_pos h, List.isEmpty_iff.mp h]
      exact ⟨fun _ => rfl, fun _ => ⟨_, rfl⟩⟩
    · rw [if_neg h]
      refine iff_of_false ?_ ?_
      · rintro ⟨e, he⟩
        exact Except.noConfusion he
      · intro hl
        exact h (by rw [hl]; rfl)
  rcases imgs with _ | ⟨i, it⟩
  · rcases clips with _ | ⟨c, ct⟩
    · simp [prepareVisuals, usableVisuals, loadImagesForKB]
    · have himgs : ¬¬(([] : List (Option α)).isEmpty = true) := by simp
      have hclips : ¬((c :: ct : List (Option α)).isEmpty = true) := by simp
      simp only [prepareVisuals, usableVisuals]
      rw [if_neg himgs, if_pos hclips, if_neg himgs]
      exact key (loadImagesForKB (c :: ct))
  · have himgs : ¬((i :: it : List (Option α)).isEmpty = true) := by simp
    simp only [prepareVisuals, usableVisuals]
    rw [if_pos himgs, if_pos himgs]
    exact key (loadImagesForKB (i :: it))

end MediaMonkey
